import Mathlib

/-!
Shallow embedding of the WIL data-cleaning pipeline and the comparison-table
builder of this repository (backend/app/services/cleaning.py,
backend/app/services/visualization.py, backend/app/api/visualization.py),
together with theorems settling the specification claims about them.

Tables are modelled as lists of rows; pandas distinct counts
(`Series.nunique`, `len(set(...))`) are modelled with `List.toFinset.card`;
pandas `drop_duplicates` (keep the first occurrence of each key) is modelled
with `dropDupsBy`; Python `sorted` is modelled with a structural insertion
sort `sortB` (stable, ascending), so that every definition evaluates inside
the kernel.
-/

/-! ### Generic list helpers -/

/-- `leadMatch n h` is true when the list `n` matches the leading elements of `h`
(models Python `str.startswith` on character lists). -/
def leadMatch {α : Type} [DecidableEq α] : List α → List α → Bool
  | [], _ => true
  | _ :: _, [] => false
  | a :: n, b :: h => decide (a = b) && leadMatch n h

/-- `hasSub n h` is true when `n` occurs as a contiguous run inside `h`
(models the Python `in` operator on strings, via character lists). -/
def hasSub {α : Type} [DecidableEq α] (n : List α) : List α → Bool
  | [] => n.isEmpty
  | b :: t => leadMatch n (b :: t) || hasSub n t

/-- Python `needle in hay` on strings. -/
def strHas (needle hay : String) : Bool :=
  hasSub needle.toList hay.toList

/-- Python `hay.startswith(lead)` on strings. -/
def strLead (lead hay : String) : Bool :=
  leadMatch lead.toList hay.toList

/-- Python `hay.endswith(tail)` on strings (trailing match). -/
def strEnds (tail hay : String) : Bool :=
  leadMatch tail.toList.reverse hay.toList.reverse

/-- Python `str.upper()` (per-character uppercasing). -/
def strUpper (s : String) : String :=
  String.mk (s.toList.map Char.toUpper)

/-- Drop leading whitespace characters. -/
def dropWsLead : List Char → List Char
  | [] => []
  | c :: t => if c.isWhitespace then dropWsLead t else c :: t

/-- Python `str.strip()`: remove leading and trailing whitespace. -/
def strStrip (s : String) : String :=
  String.mk ((dropWsLead (dropWsLead s.toList).reverse).reverse)

/-- Parse a run of decimal digits as a natural number. -/
def digitsToNat : List Char → Nat → Option Nat
  | [], acc => some acc
  | c :: t, acc =>
    if c.isDigit then digitsToNat t (acc * 10 + (c.toNat - 48))
    else none

/-- Integer-literal parsing (optional sign then digits); models the successful
cases of `pd.to_numeric` on the integer-valued strings this dataset carries. -/
def strToInt? (s : String) : Option Int :=
  match s.toList with
  | [] => none
  | '-' :: t =>
    match t with
    | [] => none
    | _ => (digitsToNat t 0).map (fun n => -(n : Int))
  | cs => (digitsToNat cs 0).map (fun n => (n : Int))

/-- Lexicographic order on code points, as Python string comparison uses. -/
def charListLe : List Char → List Char → Bool
  | [], _ => true
  | _ :: _, [] => false
  | a :: as, b :: bs =>
    if a.toNat < b.toNat then true
    else if b.toNat < a.toNat then false
    else charListLe as bs

/-- Python `<=` on strings (code-point lexicographic). -/
def strLeB (a b : String) : Bool :=
  charListLe a.toList b.toList

/-- Ordered insertion for the structural sort below. -/
def insertB {α : Type} (le : α → α → Bool) (a : α) : List α → List α
  | [] => [a]
  | b :: t => if le a b then a :: b :: t else b :: insertB le a t

/-- Structural insertion sort; models Python `sorted` (stable, ascending). -/
def sortB {α : Type} (le : α → α → Bool) : List α → List α
  | [] => []
  | a :: t => insertB le a (sortB le t)

theorem perm_insertB {α : Type} (le : α → α → Bool) (a : α) (l : List α) :
    (insertB le a l).Perm (a :: l) := by
  induction l with
  | nil => simp [insertB]
  | cons b t ih =>
    simp only [insertB]
    split
    · exact List.Perm.refl _
    · exact (ih.cons b).trans (List.Perm.swap a b t)

theorem perm_sortB {α : Type} (le : α → α → Bool) (l : List α) :
    (sortB le l).Perm l := by
  induction l with
  | nil => simp [sortB]
  | cons a t ih =>
    exact (perm_insertB le a (sortB le t)).trans (ih.cons a)

theorem length_sortB {α : Type} (le : α → α → Bool) (l : List α) :
    (sortB le l).length = l.length :=
  (perm_sortB le l).length_eq

theorem mem_sortB {α : Type} (le : α → α → Bool) (a : α) (l : List α) :
    a ∈ sortB le l ↔ a ∈ l :=
  (perm_sortB le l).mem_iff

/-- Model of pandas `DataFrame.drop_duplicates(subset=key)`: keep a row exactly
when no earlier row has the same key; `seen` accumulates the keys already kept. -/
def dropDupsBy {α κ : Type} [DecidableEq κ] (key : α → κ) : List α → List κ → List α
  | [], _ => []
  | a :: t, seen =>
    if key a ∈ seen then dropDupsBy key t seen
    else a :: dropDupsBy key t (key a :: seen)

/-- Independent rendering of "drop later rows sharing a key, keeping the first
occurrence": a left fold that appends a row only when its key is new. -/
def keepFirsts {α κ : Type} [DecidableEq κ] (key : α → κ) (l : List α) : List α :=
  l.foldl (fun acc a => if acc.any (fun b => decide (key b = key a)) then acc else acc ++ [a]) []

theorem dropDupsBy_sublist {α κ : Type} [DecidableEq κ] (key : α → κ)
    (l : List α) (seen : List κ) : (dropDupsBy key l seen).Sublist l := by
  induction l generalizing seen with
  | nil => simp [dropDupsBy]
  | cons a t ih =>
    simp only [dropDupsBy]
    split
    · exact (ih seen).cons a
    · exact (ih (key a :: seen)).cons₂ a

theorem dropDupsBy_length_le {α κ : Type} [DecidableEq κ] (key : α → κ)
    (l : List α) (seen : List κ) : (dropDupsBy key l seen).length ≤ l.length :=
  (dropDupsBy_sublist key l seen).length_le

theorem dropDupsBy_congr_seen {α κ : Type} [DecidableEq κ] (key : α → κ)
    (l : List α) (s1 s2 : List κ) (h : ∀ k, k ∈ s1 ↔ k ∈ s2) :
    dropDupsBy key l s1 = dropDupsBy key l s2 := by
  induction l generalizing s1 s2 with
  | nil => simp [dropDupsBy]
  | cons a t ih =>
    simp only [dropDupsBy]
    by_cases hk : key a ∈ s1
    · rw [if_pos hk, if_pos ((h (key a)).mp hk)]
      exact ih s1 s2 h
    · rw [if_neg hk, if_neg (fun hc => hk ((h (key a)).mpr hc))]
      refine congrArg (a :: ·) (ih _ _ ?_)
      intro k
      simp only [List.mem_cons]
      exact or_congr Iff.rfl (h k)

theorem dropDupsBy_eq_keepFirsts_aux {α κ : Type} [DecidableEq κ] (key : α → κ)
    (l : List α) (acc : List α) :
    l.foldl (fun acc a => if acc.any (fun b => decide (key b = key a)) then acc else acc ++ [a]) acc
      = acc ++ dropDupsBy key l (acc.map key) := by
  induction l generalizing acc with
  | nil => simp [dropDupsBy]
  | cons a t ih =>
    simp only [List.foldl_cons, dropDupsBy]
    by_cases hk : key a ∈ acc.map key
    · have hany : acc.any (fun b => decide (key b = key a)) = true := by
        simp only [List.any_eq_true, decide_eq_true_eq]
        obtain ⟨b, hb, hbe⟩ := List.mem_map.mp hk
        exact ⟨b, hb, hbe⟩
      rw [if_pos hany, if_pos hk]
      exact ih acc
    · have hany : ¬ acc.any (fun b => decide (key b = key a)) = true := by
        simp only [List.any_eq_true, decide_eq_true_eq]
        intro ⟨b, hb, hbe⟩
        exact hk (List.mem_map.mpr ⟨b, hb, hbe⟩)
      rw [if_neg hany, if_neg hk, ih (acc ++ [a])]
      rw [List.append_assoc, List.singleton_append]
      refine congrArg (acc ++ a :: ·) ?_
      refine dropDupsBy_congr_seen key t _ _ ?_
      intro k
      simp [List.mem_cons, List.mem_append, or_comm]

theorem dropDupsBy_eq_keepFirsts {α κ : Type} [DecidableEq κ] (key : α → κ) (l : List α) :
    dropDupsBy key l [] = keepFirsts key l := by
  rw [keepFirsts, dropDupsBy_eq_keepFirsts_aux key l []]
  simp

theorem countP_dropDupsBy {α κ : Type} [DecidableEq κ] (key : α → κ)
    (k : κ) (l : List α) (seen : List κ) :
    (dropDupsBy key l seen).countP (fun a => decide (key a = k))
      = if k ∈ seen then 0 else if l.any (fun a => decide (key a = k)) then 1 else 0 := by
  induction l generalizing seen with
  | nil => simp [dropDupsBy]
  | cons a t ih =>
    simp only [dropDupsBy, List.any_cons]
    by_cases hs : key a ∈ seen
    · rw [if_pos hs, ih seen]
      by_cases hks : k ∈ seen
      · simp [hks]
      · have : ¬ key a = k := fun he => hks (he ▸ hs)
        simp [hks, this]
    · rw [if_neg hs]
      by_cases hak : key a = k
      · have hks : ¬ k ∈ seen := fun hc => hs (hak ▸ hc)
        have hks2 : k ∈ key a :: seen := by simp [hak]
        rw [List.countP_cons]
        rw [ih (key a :: seen)]
        simp [hks, hak, hks2]
      · rw [List.countP_cons]
        rw [ih (key a :: seen)]
        have hmem : k ∈ key a :: seen ↔ k ∈ seen := by
          simp only [List.mem_cons]
          exact or_iff_right (fun he => hak he.symm)
        by_cases hks : k ∈ seen
        · simp [hks, hmem, hak]
        · simp [hks, hmem, hak]

/-! ### Cleaning pipeline (backend/app/services/cleaning.py, class DataCleaner)

A table is a column-name list plus rows of cells; a cell is either absent
(pandas `NaN` / nullable-integer `NA`), an integer, or a string.  The pipeline
stages below translate the body of `DataCleaner.clean_data` after the file
read; file I/O, timestamps and the report text are outside the model, but the
action log of `fill_missing_values` is modelled as emitted (action, details)
pairs because claim C7 is about it. -/

inductive Cell
  | absent
  | intVal (n : Int)
  | strVal (s : String)
deriving DecidableEq, Repr

/-- One table row: the cell list, positionally aligned with the column list. -/
abbrev CRow := List Cell

structure CTable where
  cols : List String
  rows : List CRow
deriving DecidableEq, Repr

/-- `DataCleaner.integer_fields`. -/
def integer_fields : List String :=
  ["ACADEMIC_YEAR", "TERM", "ACAD_PROG", "COURSE_ID",
   "OFFER_NUMBER", "CATALOG_NUMBER", "MASKED_ID"]

/-- `DataCleaner.text_fields`. -/
def text_fields : List String :=
  ["FACULTY_DESCR", "SCHOOL_NAME", "COURSE_NAME",
   "TERM_DESCR", "ACADEMIC_PROGRAM_DESCR", "ATSI_DESC",
   "REGIONAL_REMOTE", "ADMISSION_PATHWAY", "COURSE_CODE"]

/-- Apply a column-aware cell transformation to every row (cells are paired
with their column names positionally). -/
def mapCols (f : String → Cell → Cell) (t : CTable) : CTable :=
  { t with rows := t.rows.map (fun r => List.zipWith f t.cols r) }

/-- `df.replace('', np.nan)` / `df.replace(' ', np.nan)` on one cell. -/
def blankToAbsent : Cell → Cell
  | Cell.strVal "" => Cell.absent
  | Cell.strVal " " => Cell.absent
  | c => c

/-- `DataCleaner.handle_missing_values` (the statistics it records are
read-only and outside the model). -/
def handle_missing_values (t : CTable) : CTable :=
  { t with rows := t.rows.map (List.map blankToAbsent) }

/-- `pd.to_numeric(col, errors='coerce').astype('Int64')` on one cell; string
cells are coerced through integer-literal parsing, anything unparseable
becomes absent instead of raising. -/
def toNumericCell : Cell → Cell
  | Cell.absent => Cell.absent
  | Cell.intVal n => Cell.intVal n
  | Cell.strVal s =>
    match strToInt? s with
    | some n => Cell.intVal n
    | none => Cell.absent

/-- `col.astype(str)` followed by `col.replace('nan', np.nan)` on one cell. -/
def stringifyCell : Cell → Cell
  | Cell.absent => Cell.absent
  | Cell.intVal n => Cell.strVal (toString n)
  | Cell.strVal s => if s = "nan" then Cell.absent else Cell.strVal s

/-- `DataCleaner.convert_data_types`: integer fields are numerically coerced,
every other column is stringified with `'nan'` mapped back to absent (the
source uses two passes over disjoint column sets; one column-aware pass is
equivalent). -/
def convert_data_types (t : CTable) : CTable :=
  mapCols (fun c cell => if c ∈ integer_fields then toNumericCell cell else stringifyCell cell) t

/-- `col.astype(str).str.strip()` then `'nan'` back to absent, on one cell. -/
def cleanTextCell : Cell → Cell
  | Cell.absent => Cell.absent
  | Cell.intVal n =>
    if strStrip (toString n) = "nan" then Cell.absent else Cell.strVal (strStrip (toString n))
  | Cell.strVal s =>
    if strStrip s = "nan" then Cell.absent else Cell.strVal (strStrip s)

/-- `DataCleaner.clean_text_fields`. -/
def clean_text_fields (t : CTable) : CTable :=
  mapCols (fun c cell => if c ∈ text_fields then cleanTextCell cell else cell) t

/-- A cleaning-log entry, as (action, details); the timestamp the source
prepends is real time and outside the model. -/
abbrev LogEntry := String × String

/-- `fillna(0)` for integer fields, `fillna("Unknown")` otherwise, per cell. -/
def fillCell (c : String) (cell : Cell) : Cell :=
  if c ∈ integer_fields then
    match cell with
    | Cell.absent => Cell.intVal 0
    | x => x
  else
    match cell with
    | Cell.absent => Cell.strVal "Unknown"
    | x => x

/-- `df[column].isnull().sum()` for the column at position `j`. -/
def colMissing (t : CTable) (j : Nat) : Nat :=
  t.rows.countP (fun r => decide (r[j]? = some Cell.absent))

/-- The per-column log entries of `DataCleaner.fill_missing_values`: one entry
per column whose missing count is positive (the source logs the count filled
with 0 or with "Unknown"). -/
def fillColLogs (t : CTable) : List LogEntry :=
  t.cols.enum.filterMap (fun p =>
    let m := colMissing t p.1
    if m > 0 then
      some ("Missing Value Fill",
        if p.2 ∈ integer_fields then
          p.2 ++ ": filled " ++ toString m ++ " missing values with 0"
        else
          p.2 ++ ": filled " ++ toString m ++ " missing values with Unknown")
    else none)

/-- `filled_count` accumulated over all columns in
`DataCleaner.fill_missing_values`. -/
def totalMissing (t : CTable) : Nat :=
  (t.cols.enum.map (fun p => colMissing t p.1)).sum

/-- `DataCleaner.fill_missing_values`: fills every absent integer-field cell
with 0 and every other absent cell with "Unknown", returning the filled table
and the log entries the call appends (per-column entries only when that
column had missing values, then the unconditional completion entry). -/
def fill_missing_values (t : CTable) : CTable × List LogEntry :=
  ({ t with rows := t.rows.map (fun r => List.zipWith fillCell t.cols r) },
   fillColLogs t
     ++ [("Missing Value Fill Complete",
          "Total filled: " ++ toString (totalMissing t) ++ " missing values")])

/-- `DataCleaner.standardize_gender`: logging-only, the table is returned
unchanged. -/
def standardize_gender (t : CTable) : CTable := t

/-- `DataCleaner.validate_categorical_variables`: validation-only, unexpected
values are retained; the table is returned unchanged. -/
def validate_categorical_variables (t : CTable) : CTable := t

/-- The business-key projection of `check_duplicates`'s second pass:
the row's cells in the `MASKED_ID`, `TERM` and `COURSE_CODE` columns. -/
def bkey (cols : List String) (r : CRow) : Option Cell × Option Cell × Option Cell :=
  (r[cols.indexOf "MASKED_ID"]?, r[cols.indexOf "TERM"]?, r[cols.indexOf "COURSE_CODE"]?)

/-- `DataCleaner.check_duplicates`: first drop exact duplicate rows, then,
only when the `MASKED_ID`, `TERM` and `COURSE_CODE` columns are all present,
drop rows sharing that triple (keeping first occurrences); both drops are
guarded on the counted number of duplicates being positive, exactly as the
source conditions its `drop_duplicates` calls; returns the table together
with the two removed-row counts (`duplicate_rows`, `subset_duplicates`). -/
def check_duplicates (t : CTable) : CTable × Nat × Nat :=
  let exactCount := t.rows.length - (dropDupsBy id t.rows []).length
  let rows1 := if exactCount > 0 then dropDupsBy id t.rows [] else t.rows
  if "MASKED_ID" ∈ t.cols ∧ "TERM" ∈ t.cols ∧ "COURSE_CODE" ∈ t.cols then
    let subsetCount := rows1.length - (dropDupsBy (bkey t.cols) rows1 []).length
    let rows2 := if subsetCount > 0 then dropDupsBy (bkey t.cols) rows1 [] else rows1
    ({ t with rows := rows2 }, exactCount, subsetCount)
  else
    ({ t with rows := rows1 }, exactCount, 0)

/-- `extract_number_from_course_code` inside `check_data_consistency`:
`re.search(r'\d{4}$', str(course_code))`, giving the trailing four digits as
an integer, else absent. -/
def extract_number_from_course_code (c : Cell) : Cell :=
  let s := match c with
    | Cell.absent => "nan"
    | Cell.intVal n => toString n
    | Cell.strVal s => s
  let cs := s.toList.reverse.take 4
  if cs.length = 4 && cs.all Char.isDigit then
    match digitsToNat cs.reverse 0 with
    | some n => Cell.intVal (n : Int)
    | none => Cell.absent
  else Cell.absent

/-- Drop the column `name` (first occurrence) from a table, as
`df.drop(name, axis=1)`. -/
def dropCol (name : String) (t : CTable) : CTable :=
  let j := t.cols.indexOf name
  { cols := t.cols.eraseIdx j, rows := t.rows.map (fun r => r.eraseIdx j) }

/-- `DataCleaner.check_data_consistency`: all checks are read-only warnings;
the only table mutation is adding the helper `extracted_number` column and
dropping it again (when `CATALOG_NUMBER` and `COURSE_CODE` are present). -/
def check_data_consistency (t : CTable) : CTable :=
  if "CATALOG_NUMBER" ∈ t.cols ∧ "COURSE_CODE" ∈ t.cols then
    let j := t.cols.indexOf "COURSE_CODE"
    let t1 : CTable :=
      { cols := t.cols ++ ["extracted_number"],
        rows := t.rows.map (fun r => r ++ [extract_number_from_course_code (r[j]?.getD Cell.absent)]) }
    dropCol "extracted_number" t1
  else t

/-- `DataCleaner.clean_data` after the file read and before saving: the
cleaned table together with the two duplicate-removal counts recorded by
`check_duplicates` during the run. -/
def clean_pipeline (fill : Bool) (t : CTable) : CTable × Nat × Nat :=
  let t1 := handle_missing_values t
  let t2 := convert_data_types t1
  let t3 := clean_text_fields t2
  let t4 := if fill then (fill_missing_values t3).1 else t3
  let t5 := standardize_gender t4
  let t6 := validate_categorical_variables t5
  let d := check_duplicates t6
  (check_data_consistency d.1, d.2.1, d.2.2)

/-! ### Academic-level classifier
(`determine_academic_level`, nested in
`generate_distinct_student_count_table`, visualization.py lines 559-594) -/

/-- `any(course_code.startswith(str(i)) for i in range(1000, 9000, 1000))`. -/
def startsWithThousand (c : String) : Bool :=
  strLead "1000" c || strLead "2000" c || strLead "3000" c || strLead "4000" c ||
  strLead "5000" c || strLead "6000" c || strLead "7000" c || strLead "8000" c

/-- The branch chain of `determine_academic_level` on the already uppercased
and stripped code; every membership test is Python's substring `in` operator. -/
def classifyCode (c : String) : String :=
  if strHas "NON-AWARD" c || (strHas "0000" c || strHas "00" c) then
      "Non-Award"
    else if strHas "CDEV" c then
      "Undergraduate"
    else if (strHas "PHD" c || strHas "RESEARCH" c || strHas "RES" c) ||
            ((strHas "80" c || strHas "90" c) && strHas "RES" c) then
      "Research"
    else if (strHas "90" c || strHas "91" c || strHas "92" c || strHas "93" c ||
             strHas "94" c || strHas "95" c || strHas "96" c || strHas "97" c ||
             strHas "98" c || strHas "99" c) ||
            (strHas "MAST" c || strHas "GRAD" c || strHas "PG" c) then
      "Postgraduate"
    else if (strHas "10" c || strHas "20" c || strHas "30" c || strHas "40" c ||
             strHas "50" c || strHas "60" c || strHas "70" c || strHas "80" c) ||
            (strHas "BACH" c || strHas "UG" c || strHas "DIP" c) ||
            startsWithThousand c then
      "Undergraduate"
    else
      "Undergraduate"

/-- The heuristic course-code classifier (visualization.py lines 559-594),
translated rule for rule; a missing code (`pd.isna`) is `none`, any other
code is uppercased and stripped (`str(course_code).upper().strip()`) and run
through the ordered branch chain `classifyCode`. -/
def determine_academic_level (course_code : Option String) : String :=
  match course_code with
  | none => "Undergraduate"
  | some raw => classifyCode (strStrip (strUpper raw))

/-! ### Percentage-change formatting shared by the three tables -/

/-- Models Python `f"{x:.1f}"` applied to the exact rational `num/den`
(`den > 0` at every call site): round to tenths, ties to even, then print
with exactly one decimal digit; a negative value rounding to zero keeps its
minus sign, as float formatting does. -/
def fmtOneDec (num den : Int) : String :=
  let n := 10 * num
  let q := Int.fdiv n den
  let r := n - q * den
  let scaled := if 2 * r < den then q
    else if den < 2 * r then q + 1
    else if q % 2 = 0 then q else q + 1
  let a := scaled.natAbs
  let sign := if scaled < 0 ∨ (scaled = 0 ∧ num < 0) then "-" else ""
  sign ++ toString (a / 10) ++ "." ++ toString (a % 10)

/-- `f"{((count_2 - count_1) / count_1) * 100:.1f}%"`. -/
def fmtPct (c1 c2 : Nat) : String :=
  fmtOneDec (100 * ((c2 : Int) - (c1 : Int))) (c1 : Int) ++ "%"

/-- The percentage-change rule used for every row of the three analysis
tables (visualization.py lines 367-374, 386-391, 636-642, 680-687, 705-711,
727-731): a real percentage only when the year-1 count is positive, else the
"New"/"N/A" sentinels. -/
def pctChangeStr (c1 c2 : Nat) : String :=
  if 0 < c1 then fmtPct c1 c2
  else if 0 < c2 then "New"
  else "N/A"

/-! ### Comparison-table builder (backend/app/services/visualization.py,
class ReportChartGenerator)

For the analysis tables the merged, cleaned table is modelled with one record
per enrollment row, carrying the five columns the three generators read.
`MASKED_ID`, `ACADEMIC_YEAR` and `TERM` are nullable integers in the cleaned
data but the analysis flow runs with `fill_missing=True`, so they are plain
integers here; `COURSE_CODE` keeps its nullable form because the classifier
branches on `pd.isna`. -/

structure VRow where
  year : Int
  term : Int
  faculty : String
  studentId : Int
  courseCode : Option String
deriving DecidableEq, Repr

/-- `sorted(self.data['ACADEMIC_YEAR'].unique())`. -/
def availableYears (data : List VRow) : List Int :=
  sortB (fun a b => decide (a ≤ b)) ((data.map VRow.year).dedup)

/-- `available_years[-2]` and `available_years[-1]`, when they exist. -/
def lastTwo (ys : List Int) : Option (Int × Int) :=
  match ys.reverse with
  | y2 :: y1 :: _ => some (y1, y2)
  | _ => none

/-- `len(set(rows['MASKED_ID']))` over a row selection. -/
def nuniqStudents (rows : List VRow) : Nat :=
  ((rows.map VRow.studentId).toFinset).card

/-- `data[data.ACADEMIC_YEAR == y].groupby('FACULTY_DESCR')['MASKED_ID']
.nunique().get(f, 0)`: the distinct-student count of one faculty in one
year (0 when the faculty has no rows that year). -/
def enrollCount (data : List VRow) (y : Int) (f : String) : Nat :=
  nuniqStudents (data.filter (fun r => decide (r.year = y) && decide (r.faculty = f)))

/-- `sorted` over faculty names (Python compares strings by code point). -/
def sortStr (l : List String) : List String :=
  sortB strLeB l

/-- Table 1's faculty list:
`sorted(set(enrollment_year_1.index) | set(enrollment_year_2.index))`. -/
def facultiesT1 (data : List VRow) (y1 y2 : Int) : List String :=
  sortStr (((data.filter (fun r => decide (r.year = y1) || decide (r.year = y2))).map VRow.faculty).dedup)

/-- One row of Table 1 (and, reused, of Table 3): a label, the two year
counts, and the formatted '% Change' cell. -/
structure TRow where
  label : String
  c1 : Nat
  c2 : Nat
  pct : String
deriving DecidableEq, Repr

/-- Table 1: the faculty rows in order, then the Grand Total row (the
source's `rows` list is `facRows ++ [grandTotal]`). -/
structure Table1 where
  year1 : Int
  year2 : Int
  facRows : List TRow
  grandTotal : TRow
deriving DecidableEq, Repr

/-- One faculty row of Table 1 (visualization.py lines 362-384). -/
def mkT1Row (data : List VRow) (y1 y2 : Int) (f : String) : TRow :=
  { label := f,
    c1 := enrollCount data y1 f,
    c2 := enrollCount data y2 f,
    pct := pctChangeStr (enrollCount data y1 f) (enrollCount data y2 f) }

/-- `generate_wil_enrollment_comparison_table`: `none` models the `{}` the
source returns when fewer than 2 distinct years are present.  The grand
totals are the running sums `total_year_1` / `total_year_2` accumulated over
the faculty rows. -/
def generate_wil_enrollment_comparison_table (data : List VRow) : Option Table1 :=
  (lastTwo (availableYears data)).map (fun yy =>
    let facRows := (facultiesT1 data yy.1 yy.2).map (mkT1Row data yy.1 yy.2)
    let total1 := (facRows.map TRow.c1).sum
    let total2 := (facRows.map TRow.c2).sum
    { year1 := yy.1, year2 := yy.2, facRows := facRows,
      grandTotal := { label := "Grand Total", c1 := total1, c2 := total2,
                      pct := pctChangeStr total1 total2 } })

/-! ### Table 2: term breakdown -/

/-- One data row of Table 2: the 'Term' cell (a faculty name or
'Grand Total') and the per-column counts in column order; the constant
'Count of WIL Enrolments' cell carries no data and is omitted. -/
structure T2Row where
  label : String
  counts : List (String × Nat)
deriving DecidableEq, Repr

structure Table2 where
  year1 : Int
  year2 : Int
  termColumns : List String
  facRows : List T2Row
  grandTotal : T2Row
deriving DecidableEq, Repr

/-- `sorted(self.data['TERM'].unique())`. -/
def sortedTerms (data : List VRow) : List Int :=
  sortB (fun a b => decide (a ≤ b)) ((data.map VRow.term).dedup)

/-- The `(year, term)` pairs behind `term_columns`: both compared years
crossed with every term observed anywhere in the data, year-major. -/
def termColPairs (data : List VRow) (y1 y2 : Int) : List (Int × Int) :=
  (([y1, y2].map (fun y => (sortedTerms data).map (fun tm => (y, tm))))).flatten

/-- `f'{year} {term}'`. -/
def termColName (p : Int × Int) : String :=
  toString p.1 ++ " " ++ toString p.2

/-- The distinct-student count of one faculty in one `(year, term)` cell. -/
def termCount (data : List VRow) (f : String) (y tm : Int) : Nat :=
  nuniqStudents (data.filter (fun r =>
    decide (r.faculty = f) && decide (r.year = y) && decide (r.term = tm)))

/-- `generate_term_breakdown_table` (visualization.py lines 423-536): `none`
models the `{}` returned on fewer than 2 distinct years; the model's row type
always carries a term column (the source's missing-`TERM`-column early return
has no counterpart over this row type). -/
def generate_term_breakdown_table (data : List VRow) : Option Table2 :=
  (lastTwo (availableYears data)).map (fun yy =>
    let facs := sortStr ((data.map VRow.faculty).dedup)
    let cols := termColPairs data yy.1 yy.2
    let facRows := facs.map (fun f =>
      { label := f,
        counts := cols.map (fun p => (termColName p, termCount data f p.1 p.2)) : T2Row })
    let gt : T2Row :=
      { label := "Grand Total",
        counts := cols.map (fun p =>
          (termColName p, (facs.map (fun f => termCount data f p.1 p.2)).sum)) }
    { year1 := yy.1, year2 := yy.2, termColumns := cols.map termColName,
      facRows := facRows, grandTotal := gt })

/-! ### Table 3: academic-level demographics -/

/-- `data_with_level`: each row paired with its derived academic level. -/
def data_with_level (data : List VRow) : List (VRow × String) :=
  data.map (fun r => (r, determine_academic_level r.courseCode))

/-- The preferred academic-level ordering of the source. -/
def preferred_level_order : List String :=
  ["Non-Award", "Postgraduate", "Undergraduate", "Research"]

/-- The levels that actually occur in the data (`levels_with_data`). -/
def levelsWithData (data : List VRow) : List String :=
  ((data_with_level data).map Prod.snd).dedup

/-- `ordered_levels`: the preferred order restricted to occurring levels,
then any remaining occurring levels sorted. -/
def ordered_levels (data : List VRow) : List String :=
  preferred_level_order.filter (fun l => decide (l ∈ levelsWithData data))
    ++ sortStr ((levelsWithData data).filter (fun l => decide (l ∉ preferred_level_order)))

/-- The distinct students of one faculty in one year
(`faculty_year_1_total` / `faculty_year_2_total`). -/
def facCount (data : List VRow) (y : Int) (f : String) : Nat :=
  nuniqStudents (data.filter (fun r => decide (r.faculty = f) && decide (r.year = y)))

/-- `level_students_year`: the student-id set of one faculty, level and year. -/
def levelStudents (data : List VRow) (y : Int) (f lvl : String) : Finset Int :=
  (((data_with_level data).filter (fun p =>
      decide (p.1.faculty = f) && decide (p.2 = lvl) && decide (p.1.year = y))).map
    (fun p => p.1.studentId)).toFinset

/-- `faculty_students_year`: the union of the level sets accumulated over the
ordered levels (`faculty_students_year_1.update(...)`). -/
def facultyLevelUnion (data : List VRow) (y : Int) (f : String) (levels : List String) : Finset Int :=
  levels.foldl (fun acc lvl => acc ∪ levelStudents data y f lvl) ∅

/-- The rows Table 3 emits for one faculty (visualization.py lines 629-721):
the faculty header row, one indented row per level with a student in either
year, and the indented Total row when nonempty. -/
def t3FacultyRows (data : List VRow) (y1 y2 : Int) (levels : List String) (f : String) : List TRow :=
  let header : TRow :=
    { label := f, c1 := facCount data y1 f, c2 := facCount data y2 f,
      pct := pctChangeStr (facCount data y1 f) (facCount data y2 f) }
  let lvlRows := (levels.filter (fun lvl =>
      decide (0 < (levelStudents data y1 f lvl).card) ||
      decide (0 < (levelStudents data y2 f lvl).card))).map (fun lvl =>
    { label := "    " ++ lvl,
      c1 := (levelStudents data y1 f lvl).card,
      c2 := (levelStudents data y2 f lvl).card,
      pct := pctChangeStr (levelStudents data y1 f lvl).card (levelStudents data y2 f lvl).card : TRow })
  let sub1 := (facultyLevelUnion data y1 f levels).card
  let sub2 := (facultyLevelUnion data y2 f levels).card
  let subRows : List TRow :=
    if 0 < sub1 ∨ 0 < sub2 then
      [{ label := "  Total", c1 := sub1, c2 := sub2, pct := pctChangeStr sub1 sub2 }]
    else []
  header :: lvlRows ++ subRows

/-- `year_1_students` / `year_2_students`: the distinct student count over the
whole table for one year (visualization.py lines 624-625, 724-725). -/
def distinctStudentsYear (data : List VRow) (y : Int) : Nat :=
  nuniqStudents (data.filter (fun r => decide (r.year = y)))

/-- Table 3: the body rows in faculty order, then the Grand Total row (the
source's `rows` list is `body ++ [grandTotal]`). -/
structure Table3 where
  year1 : Int
  year2 : Int
  body : List TRow
  grandTotal : TRow
deriving DecidableEq, Repr

/-- `generate_distinct_student_count_table` (visualization.py lines 538-762):
`none` models the `{}` returned on fewer than 2 distinct years. -/
def generate_distinct_student_count_table (data : List VRow) : Option Table3 :=
  (lastTwo (availableYears data)).map (fun yy =>
    let levels := ordered_levels data
    let facs := sortStr ((data.map VRow.faculty).dedup)
    let body := (facs.map (t3FacultyRows data yy.1 yy.2 levels)).flatten
    let g1 := distinctStudentsYear data yy.1
    let g2 := distinctStudentsYear data yy.2
    { year1 := yy.1, year2 := yy.2, body := body,
      grandTotal := { label := "Grand Total", c1 := g1, c2 := g2,
                      pct := pctChangeStr g1 g2 } })

/-! ### The output mapping of `generate_all_analysis_tables` -/

inductive ATable
  | enrollment (t : Table1)
  | termBreakdown (t : Table2)
  | demographics (t : Table3)
deriving DecidableEq, Repr

/-- `generate_all_analysis_tables` (visualization.py lines 923-1006): with
fewer than 2 distinct years the mapping is empty; otherwise each generator's
table is added under its name when the generator returned one (the
`_metadata` entry records a real-time timestamp and is outside the model). -/
def generate_all_analysis_tables (data : List VRow) : List (String × ATable) :=
  if (availableYears data).length < 2 then []
  else
    ((generate_wil_enrollment_comparison_table data).map
        (fun t => ("wil_enrollment_comparison", ATable.enrollment t))).toList
    ++ ((generate_term_breakdown_table data).map
        (fun t => ("term_breakdown", ATable.termBreakdown t))).toList
    ++ ((generate_distinct_student_count_table data).map
        (fun t => ("distinct_student_count", ATable.demographics t))).toList

/-! ### Multi-file merge (backend/app/api/visualization.py, analyze_multi_file,
lines 924-935)

The cleaned per-file tables share one column schema; the merge concatenates
their row lists in input order (`pd.concat(all_dataframes, ignore_index=True)`)
and, when the `MASKED_ID` and `ACADEMIC_YEAR` columns exist, drops rows
sharing that pair, keeping the first occurrence. -/

/-- The `(MASKED_ID, ACADEMIC_YEAR)` projection used by the merge dedup. -/
def mergeKey (cols : List String) (r : CRow) : Option Cell × Option Cell :=
  (r[cols.indexOf "MASKED_ID"]?, r[cols.indexOf "ACADEMIC_YEAR"]?)

/-- The merge step of `analyze_multi_file`. -/
def merge_cleaned (cols : List String) (tables : List (List CRow)) : List CRow :=
  let merged := tables.flatten
  if "MASKED_ID" ∈ cols ∧ "ACADEMIC_YEAR" ∈ cols then
    dropDupsBy (mergeKey cols) merged []
  else merged

/-! ### Shared lemmas for the duplicate passes -/

theorem dropDups_guard {α κ : Type} [DecidableEq κ] (key : α → κ) (l : List α) :
    (if 0 < l.length - (dropDupsBy key l []).length then dropDupsBy key l [] else l)
      = keepFirsts key l := by
  by_cases h : 0 < l.length - (dropDupsBy key l []).length
  · rw [if_pos h, dropDupsBy_eq_keepFirsts]
  · rw [if_neg h, ← dropDupsBy_eq_keepFirsts]
    have hle := dropDupsBy_length_le key l []
    have hlen : (dropDupsBy key l []).length = l.length := by omega
    exact ((dropDupsBy_sublist key l []).eq_of_length hlen).symm

/-- C8: duplicate removal applies two passes in a fixed order: first the rows
that are exact duplicates across all columns are dropped, then the rows
sharing the same (MASKED_ID, TERM, COURSE_CODE) triple are dropped keeping
the first occurrence, and the second pass runs exactly when all three of
those columns are present; the column list is untouched. -/
theorem check_duplicates_two_pass (t : CTable) :
    (check_duplicates t).1.rows =
      (if "MASKED_ID" ∈ t.cols ∧ "TERM" ∈ t.cols ∧ "COURSE_CODE" ∈ t.cols
       then keepFirsts (bkey t.cols) (keepFirsts id t.rows)
       else keepFirsts id t.rows)
    ∧ (check_duplicates t).1.cols = t.cols := by
  unfold check_duplicates
  by_cases hc : "MASKED_ID" ∈ t.cols ∧ "TERM" ∈ t.cols ∧ "COURSE_CODE" ∈ t.cols
  · simp only [hc, if_true, gt_iff_lt]
    rw [dropDups_guard id t.rows, dropDups_guard (bkey t.cols) (keepFirsts id t.rows)]
    exact ⟨rfl, rfl⟩
  · simp only [hc, if_false, gt_iff_lt]
    rw [dropDups_guard id t.rows]
    exact ⟨rfl, trivial⟩

theorem check_duplicates_row_count (t : CTable) :
    (check_duplicates t).1.rows.length
      = t.rows.length - (check_duplicates t).2.1 - (check_duplicates t).2.2 := by
  unfold check_duplicates
  have h1 := dropDupsBy_length_le id t.rows []
  have h2 := dropDupsBy_length_le (bkey t.cols) (dropDupsBy id t.rows []) []
  have h3 := dropDupsBy_length_le (bkey t.cols) t.rows []
  by_cases hc : "MASKED_ID" ∈ t.cols ∧ "TERM" ∈ t.cols ∧ "COURSE_CODE" ∈ t.cols
  · simp only [hc, if_true, gt_iff_lt]
    split_ifs <;> simp <;> omega
  · simp only [hc, if_false, gt_iff_lt]
    split_ifs <;> simp <;> omega

/-! ### Row counts through the pipeline stages -/

theorem rows_length_mapCols (f : String → Cell → Cell) (t : CTable) :
    (mapCols f t).rows.length = t.rows.length := by
  simp [mapCols]

theorem rows_length_handle_missing_values (t : CTable) :
    (handle_missing_values t).rows.length = t.rows.length := by
  simp [handle_missing_values]

theorem rows_length_fill_missing_values (t : CTable) :
    ((fill_missing_values t).1).rows.length = t.rows.length := by
  simp [fill_missing_values]

theorem rows_length_check_data_consistency (t : CTable) :
    (check_data_consistency t).rows.length = t.rows.length := by
  unfold check_data_consistency dropCol
  split <;> simp

/-- C5: for every cleaning run, the cleaned row count equals the original row
count minus the exact-duplicate rows removed minus the business-key duplicate
rows removed, and the removed count (original minus cleaned) is never
negative since no pipeline stage adds rows. -/
theorem cleaned_row_count_invariant (fill : Bool) (t : CTable) :
    (clean_pipeline fill t).1.rows.length
        = t.rows.length - (clean_pipeline fill t).2.1 - (clean_pipeline fill t).2.2
    ∧ (clean_pipeline fill t).1.rows.length ≤ t.rows.length := by
  have hlen3 :
      (clean_text_fields (convert_data_types (handle_missing_values t))).rows.length
        = t.rows.length := by
    unfold clean_text_fields convert_data_types
    rw [rows_length_mapCols, rows_length_mapCols, rows_length_handle_missing_values]
  have hlen4 :
      (if fill then
          (fill_missing_values (clean_text_fields (convert_data_types (handle_missing_values t)))).1
        else clean_text_fields (convert_data_types (handle_missing_values t))).rows.length
        = t.rows.length := by
    split
    · rw [rows_length_fill_missing_values, hlen3]
    · exact hlen3
  have e1 : (clean_pipeline fill t).1
      = check_data_consistency
          (check_duplicates
            (if fill then
                (fill_missing_values (clean_text_fields (convert_data_types (handle_missing_values t)))).1
              else clean_text_fields (convert_data_types (handle_missing_values t)))).1 := rfl
  have e2 : (clean_pipeline fill t).2.1
      = (check_duplicates
            (if fill then
                (fill_missing_values (clean_text_fields (convert_data_types (handle_missing_values t)))).1
              else clean_text_fields (convert_data_types (handle_missing_values t)))).2.1 := rfl
  have e3 : (clean_pipeline fill t).2.2
      = (check_duplicates
            (if fill then
                (fill_missing_values (clean_text_fields (convert_data_types (handle_missing_values t)))).1
              else clean_text_fields (convert_data_types (handle_missing_values t)))).2.2 := rfl
  rw [e1, e2, e3, rows_length_check_data_consistency, check_duplicates_row_count, hlen4]
  omega

/-! ### The Missing-Value Filler on a second run -/

theorem fillCell_ne_absent (c : String) (x : Cell) : fillCell c x ≠ Cell.absent := by
  cases x <;> unfold fillCell <;> split <;> simp

theorem fillCell_of_ne_absent (c : String) (x : Cell) (h : x ≠ Cell.absent) :
    fillCell c x = x := by
  cases x <;> unfold fillCell <;> split <;> simp_all

theorem fillCell_idem (c : String) (x : Cell) :
    fillCell c (fillCell c x) = fillCell c x :=
  fillCell_of_ne_absent c (fillCell c x) (fillCell_ne_absent c x)

theorem zipWith_fillCell_idem (cols : List String) (r : CRow) :
    List.zipWith fillCell cols (List.zipWith fillCell cols r)
      = List.zipWith fillCell cols r := by
  induction cols generalizing r with
  | nil => simp
  | cons c cs ih =>
    cases r with
    | nil => simp
    | cons x xs => simp [List.zipWith, fillCell_idem, ih]

theorem getCell_zipWith_fillCell (cols : List String) (r : CRow) (j : Nat) :
    (List.zipWith fillCell cols r)[j]? ≠ some Cell.absent := by
  induction cols generalizing r j with
  | nil => simp
  | cons c cs ih =>
    cases r with
    | nil => simp
    | cons x xs =>
      cases j with
      | zero =>
        simp only [List.zipWith, List.getElem?_cons_zero]
        intro h
        exact fillCell_ne_absent c x (Option.some.inj h)
      | succ n =>
        simp only [List.zipWith, List.getElem?_cons_succ]
        exact ih xs n

theorem colMissing_fill (t : CTable) (j : Nat) :
    colMissing (fill_missing_values t).1 j = 0 := by
  unfold colMissing fill_missing_values
  simp only [List.countP_map]
  rw [List.countP_eq_zero]
  intro r _
  simp only [Function.comp_apply, decide_eq_true_eq]
  exact getCell_zipWith_fillCell t.cols r j

theorem fillColLogs_fill (t : CTable) :
    fillColLogs (fill_missing_values t).1 = [] := by
  unfold fillColLogs
  rw [List.filterMap_eq_nil_iff]
  intro p _
  simp only [colMissing_fill]
  rfl

theorem totalMissing_fill (t : CTable) :
    totalMissing (fill_missing_values t).1 = 0 := by
  unfold totalMissing
  rw [List.sum_eq_zero]
  intro x hx
  obtain ⟨p, _, hp⟩ := List.mem_map.mp hx
  rw [← hp, colMissing_fill]

/-- C7 (amended): running the Missing-Value Filler a second time on an
already-filled table changes no cell value and produces no per-column fill
log entries, but it still appends the unconditional completion entry
recording that 0 values were filled — the second run's log is not empty. -/
theorem fill_missing_values_idem (t : CTable) :
    (fill_missing_values (fill_missing_values t).1).1 = (fill_missing_values t).1 ∧
    (fill_missing_values (fill_missing_values t).1).2
      = [("Missing Value Fill Complete", "Total filled: 0 missing values")] := by
  constructor
  · show ({ cols := t.cols,
            rows := (t.rows.map (fun r => List.zipWith fillCell t.cols r)).map
              (fun r => List.zipWith fillCell t.cols r) } : CTable)
        = { cols := t.cols, rows := t.rows.map (fun r => List.zipWith fillCell t.cols r) }
    rw [List.map_map]
    refine congrArg (fun rs => ({ cols := t.cols, rows := rs } : CTable)) ?_
    refine List.map_congr_left ?_
    intro r _
    exact zipWith_fillCell_idem t.cols r
  · show fillColLogs (fill_missing_values t).1
        ++ [("Missing Value Fill Complete",
             "Total filled: " ++ toString (totalMissing (fill_missing_values t).1) ++ " missing values")]
      = [("Missing Value Fill Complete", "Total filled: 0 missing values")]
    rw [fillColLogs_fill, totalMissing_fill]
    rfl

/-- The concrete table behind the C7 counterexample: one column, one row,
one absent cell. -/
def c7table : CTable :=
  { cols := ["GENDER"], rows := [[Cell.absent]] }

/-- C7 counterexample: the claim says a second run of `fill_missing_values`
produces no log entries, but on `c7table` the second run still logs the
completion entry, so its log list is not empty. -/
theorem fill_missing_values_second_run_logs :
    (fill_missing_values (fill_missing_values c7table).1).2 ≠ [] := by decide

/-! ### Multi-file merge -/

/-- C9: the multi-file merge concatenates the cleaned tables preserving row
order across inputs (the result is an order-preserving selection from the
concatenation), keeps first occurrences (`keepFirsts` of the merge key when
the `MASKED_ID` and `ACADEMIC_YEAR` columns exist), and in that case every
(student, academic_year) key occurring anywhere in the inputs ends up on
exactly one merged row. -/
theorem merge_cleaned_dedup (cols : List String) (tables : List (List CRow)) :
    (merge_cleaned cols tables).Sublist tables.flatten ∧
    (("MASKED_ID" ∈ cols ∧ "ACADEMIC_YEAR" ∈ cols) →
      merge_cleaned cols tables = keepFirsts (mergeKey cols) tables.flatten) ∧
    (("MASKED_ID" ∈ cols ∧ "ACADEMIC_YEAR" ∈ cols) →
      ∀ k, (merge_cleaned cols tables).countP (fun r => decide (mergeKey cols r = k))
        = if tables.flatten.any (fun r => decide (mergeKey cols r = k)) then 1 else 0) := by
  refine ⟨?_, ?_, ?_⟩
  · unfold merge_cleaned
    split
    · exact dropDupsBy_sublist (mergeKey cols) tables.flatten []
    · exact List.Sublist.refl _
  · intro hc
    unfold merge_cleaned
    rw [if_pos hc, dropDupsBy_eq_keepFirsts]
  · intro hc k
    unfold merge_cleaned
    rw [if_pos hc, countP_dropDupsBy (mergeKey cols) k tables.flatten []]
    simp

/-- The column schema of the C9 witness tables. -/
def c9cols : List String := ["MASKED_ID", "ACADEMIC_YEAR"]

/-- One cleaned input file holding the row (student 42, year 2025). -/
def c9file : List CRow := [[Cell.intVal 42, Cell.intVal 2025]]

/-- C9 witness: merging two files that each contain a row with the key
(student_id=42, academic_year=2025) leaves exactly one merged row with that
key. -/
theorem merge_cleaned_dedup_witness :
    ("MASKED_ID" ∈ c9cols ∧ "ACADEMIC_YEAR" ∈ c9cols) ∧
    (merge_cleaned c9cols [c9file, c9file]).countP
        (fun r => decide (mergeKey c9cols r = (some (Cell.intVal 42), some (Cell.intVal 2025)))) = 1 := by
  refine ⟨by decide, ?_⟩
  have h := (merge_cleaned_dedup c9cols [c9file, c9file]).2.2 (by decide)
      (some (Cell.intVal 42), some (Cell.intVal 2025))
  rw [h]
  decide

/-! ### The academic-level classifier's Non-Award rule -/

/-- C2 counterexample: the claim says the classifier returns "Non-Award"
exactly for explicit non-award markers or codes ending with "0000"/"00"
(trailing match), but "COMP1001" carries no marker, ends in "01", and is
still classified "Non-Award" because the source tests `'00' in course_code`
— a substring match, which hits the middle of "1001". -/
theorem determine_academic_level_counterexample :
    determine_academic_level (some "COMP1001") = "Non-Award" ∧
    strHas "NON-AWARD" "COMP1001" = false ∧
    strEnds "0000" "COMP1001" = false ∧
    strEnds "00" "COMP1001" = false := by
  decide

/-- C2 (amended): the classifier returns "Non-Award" exactly when the
uppercased, stripped code contains "NON-AWARD" or contains "0000" or "00"
anywhere as a substring; for any code without those, a "CDEV" substring
yields "Undergraduate"; the rules apply in order with first match winning. -/
theorem determine_academic_level_non_award_iff (s : String) :
    (determine_academic_level (some s) = "Non-Award" ↔
      (strHas "NON-AWARD" (strStrip (strUpper s)) ||
        (strHas "0000" (strStrip (strUpper s)) || strHas "00" (strStrip (strUpper s)))) = true) ∧
    ((strHas "NON-AWARD" (strStrip (strUpper s)) ||
        (strHas "0000" (strStrip (strUpper s)) || strHas "00" (strStrip (strUpper s)))) = false →
      strHas "CDEV" (strStrip (strUpper s)) = true →
      determine_academic_level (some s) = "Undergraduate") := by
  have hred : determine_academic_level (some s) = classifyCode (strStrip (strUpper s)) := rfl
  constructor
  · rw [hred]
    unfold classifyCode
    split_ifs with h1 h2 h3 h4 h5 <;> simp_all
  · intro hna hcdev
    rw [hred]
    unfold classifyCode
    rw [if_neg (by simp_all), if_pos hcdev]

/-- C2 witness: "CDEV1023" has no Non-Award marker or 00/0000 substring and
contains "CDEV", so the amended theorem classifies it "Undergraduate". -/
theorem determine_academic_level_non_award_iff_witness :
    (strHas "NON-AWARD" (strStrip (strUpper "CDEV1023")) ||
      (strHas "0000" (strStrip (strUpper "CDEV1023"))
        || strHas "00" (strStrip (strUpper "CDEV1023")))) = false ∧
    determine_academic_level (some "CDEV1023") = "Undergraduate" :=
  ⟨by decide,
   (determine_academic_level_non_award_iff "CDEV1023").2 (by decide) (by decide)⟩

/-! ### Fewer than two distinct years -/

theorem lastTwo_eq_none_of_short (ys : List Int) (h : ys.length < 2) :
    lastTwo ys = none := by
  unfold lastTwo
  have hrev : ys.reverse.length < 2 := by
    rw [List.length_reverse]
    exact h
  cases hr : ys.reverse with
  | nil => rfl
  | cons a t =>
    cases t with
    | nil => rfl
    | cons b t2 =>
      rw [hr] at hrev
      simp at hrev
      omega

theorem availableYears_length (data : List VRow) :
    (availableYears data).length = ((data.map VRow.year).dedup).length :=
  length_sortB _ _

/-- C3: for every input table with fewer than 2 distinct academic-year
values, each comparison-table generation call returns the empty result and
raises no exception (the generators are total functions returning `none`),
and `generate_all_analysis_tables` returns the empty mapping, so every
comparison table is omitted from its output. -/
theorem insufficient_years_empty_tables (data : List VRow)
    (h : ((data.map VRow.year).dedup).length < 2) :
    generate_wil_enrollment_comparison_table data = none ∧
    generate_term_breakdown_table data = none ∧
    generate_distinct_student_count_table data = none ∧
    generate_all_analysis_tables data = [] := by
  have hy : lastTwo (availableYears data) = none := by
    refine lastTwo_eq_none_of_short _ ?_
    rw [availableYears_length]
    exact h
  have hlen : (availableYears data).length < 2 := by
    rw [availableYears_length]
    exact h
  refine ⟨?_, ?_, ?_, ?_⟩
  · unfold generate_wil_enrollment_comparison_table
    rw [hy]
    rfl
  · unfold generate_term_breakdown_table
    rw [hy]
    rfl
  · unfold generate_distinct_student_count_table
    rw [hy]
    rfl
  · unfold generate_all_analysis_tables
    rw [if_pos hlen]

/-- The single-year input behind the C3 witness. -/
def c3data : List VRow :=
  [{ year := 2024, term := 1, faculty := "Faculty of Science", studentId := 1,
     courseCode := some "COMP1001" }]

/-- C3 witness: on a single-year input the enrollment-comparison generator
returns the empty result and the all-tables mapping is empty. -/
theorem insufficient_years_empty_tables_witness :
    ((c3data.map VRow.year).dedup).length < 2 ∧
    generate_wil_enrollment_comparison_table c3data = none ∧
    generate_all_analysis_tables c3data = [] := by
  refine ⟨by decide, ?_, ?_⟩
  · exact (insufficient_years_empty_tables c3data (by decide)).1
  · exact (insufficient_years_empty_tables c3data (by decide)).2.2.2

/-! ### The percentage-change sentinel rule over the generated rows -/

/-- C1: the percentage-change rule intercepts the zero divisor before any
division: a row's '% Change' cell is the one-decimal percentage string with a
trailing '%' exactly when the year-1 count is positive, is "New" when the
year-1 count is 0 and the year-2 count is positive, and is "N/A" when both
are 0; and every faculty row of the enrollment comparison table and every
row of the academic-level demographics table carries `pctChangeStr` of its
own two stored counts. -/
theorem pct_change_sentinel (data : List VRow) :
    (∀ c1 c2 : Nat,
       (0 < c1 → pctChangeStr c1 c2 = fmtOneDec (100 * ((c2 : Int) - (c1 : Int))) (c1 : Int) ++ "%") ∧
       (c1 = 0 → 0 < c2 → pctChangeStr c1 c2 = "New") ∧
       (c1 = 0 → c2 = 0 → pctChangeStr c1 c2 = "N/A")) ∧
    (∀ t1, generate_wil_enrollment_comparison_table data = some t1 →
       ∀ r ∈ t1.facRows, r.pct = pctChangeStr r.c1 r.c2) ∧
    (∀ t3, generate_distinct_student_count_table data = some t3 →
       ∀ r ∈ t3.body, r.pct = pctChangeStr r.c1 r.c2) := by
  refine ⟨?_, ?_, ?_⟩
  · intro c1 c2
    refine ⟨?_, ?_, ?_⟩
    · intro h1
      unfold pctChangeStr fmtPct
      rw [if_pos h1]
    · intro h1 h2
      unfold pctChangeStr
      rw [if_neg (by omega), if_pos h2]
    · intro h1 h2
      unfold pctChangeStr
      rw [if_neg (by omega), if_neg (by omega)]
  · intro t1 h r hr
    unfold generate_wil_enrollment_comparison_table at h
    cases hy : lastTwo (availableYears data) with
    | none => rw [hy] at h; exact absurd h (by simp)
    | some yy =>
      rw [hy, Option.map_some'] at h
      obtain rfl := Option.some.inj h.symm
      simp only [Table1.facRows] at hr
      obtain ⟨f, _, rfl⟩ := List.mem_map.mp hr
      rfl
  · intro t3 h r hr
    unfold generate_distinct_student_count_table at h
    cases hy : lastTwo (availableYears data) with
    | none => rw [hy] at h; exact absurd h (by simp)
    | some yy =>
      rw [hy, Option.map_some'] at h
      obtain rfl := Option.some.inj h.symm
      simp only [Table3.body] at hr
      obtain ⟨rows, hrows, hrmem⟩ := List.mem_flatten.mp hr
      obtain ⟨f, _, rfl⟩ := List.mem_map.mp hrows
      unfold t3FacultyRows at hrmem
      rcases List.mem_cons.mp hrmem with hhead | htail
      · subst hhead
        rfl
      · rcases List.mem_append.mp htail with hlvl | hsub
        · obtain ⟨lvl, _, rfl⟩ := List.mem_map.mp hlvl
          rfl
        · by_cases hne :
            0 < (facultyLevelUnion data yy.1 f (ordered_levels data)).card ∨
            0 < (facultyLevelUnion data yy.2 f (ordered_levels data)).card
          · rw [if_pos hne] at hsub
            rcases List.mem_singleton.mp hsub with rfl
            rfl
          · rw [if_neg hne] at hsub
            exact absurd hsub (List.not_mem_nil r)

/-- The two-year input behind the C1 witness. -/
def c1data : List VRow :=
  [{ year := 2024, term := 1, faculty := "A", studentId := 1, courseCode := some "COMP1001" },
   { year := 2025, term := 1, faculty := "A", studentId := 2, courseCode := some "COMP1001" },
   { year := 2025, term := 1, faculty := "B", studentId := 3, courseCode := some "COMP1001" }]

/-- The enrollment comparison table generated from `c1data`. -/
def c1table : Table1 :=
  { year1 := 2024, year2 := 2025,
    facRows := [{ label := "A", c1 := 1, c2 := 1, pct := "0.0%" },
                { label := "B", c1 := 0, c2 := 1, pct := "New" }],
    grandTotal := { label := "Grand Total", c1 := 1, c2 := 2, pct := "100.0%" } }

/-- The faculty-B row of `c1table`: year-1 count 0, year-2 count 1. -/
def c1rowB : TRow := { label := "B", c1 := 0, c2 := 1, pct := "New" }

/-- C1 witness: on `c1data` the generator emits `c1table`, whose faculty-B
row (counts 0 and 1) carries the "New" sentinel required by the rule. -/
theorem pct_change_sentinel_witness :
    generate_wil_enrollment_comparison_table c1data = some c1table ∧
    c1rowB ∈ c1table.facRows ∧
    c1rowB.pct = pctChangeStr c1rowB.c1 c1rowB.c2 ∧
    c1rowB.c1 = 0 ∧ 0 < c1rowB.c2 ∧ pctChangeStr c1rowB.c1 c1rowB.c2 = "New" := by
  refine ⟨by decide, by decide, ?_, by decide, by decide, ?_⟩
  · exact (pct_change_sentinel c1data).2.1 c1table (by decide) c1rowB (by decide)
  · exact ((pct_change_sentinel c1data).1 c1rowB.c1 c1rowB.c2).2.1 (by decide) (by decide)

/-! ### Table 1's Grand Total is a sum of per-faculty distinct counts -/

/-- The input behind the C10 exceed example: student 7 enrolled under two
faculties in 2024. -/
def c10data : List VRow :=
  [{ year := 2024, term := 1, faculty := "A", studentId := 7, courseCode := none },
   { year := 2024, term := 1, faculty := "B", studentId := 7, courseCode := none },
   { year := 2025, term := 1, faculty := "A", studentId := 8, courseCode := none }]

/-- C10: in the enrollment comparison table the Grand Total row's counts are
the sums over the faculty rows of the per-faculty distinct-student counts
(the running `total_year_1 += count_1` accumulation), so a student enrolled
in several faculties in one year is counted once per faculty; on `c10data`
the 2024 grand total is 2 while the 2024 whole-table distinct-student count
is 1, so the grand total exceeds it. -/
theorem enrollment_grand_total_sum (data : List VRow) :
    (∀ t1, generate_wil_enrollment_comparison_table data = some t1 →
       t1.grandTotal.c1 = (t1.facRows.map TRow.c1).sum ∧
       t1.grandTotal.c2 = (t1.facRows.map TRow.c2).sum ∧
       t1.grandTotal.c1 = ((facultiesT1 data t1.year1 t1.year2).map (enrollCount data t1.year1)).sum ∧
       t1.grandTotal.c2 = ((facultiesT1 data t1.year1 t1.year2).map (enrollCount data t1.year2)).sum) ∧
    ((generate_wil_enrollment_comparison_table c10data).map (fun t => t.grandTotal.c1) = some 2 ∧
     distinctStudentsYear c10data 2024 = 1) := by
  constructor
  · intro t1 h
    unfold generate_wil_enrollment_comparison_table at h
    cases hy : lastTwo (availableYears data) with
    | none => rw [hy] at h; exact absurd h (by simp)
    | some yy =>
      rw [hy, Option.map_some'] at h
      obtain rfl := Option.some.inj h.symm
      refine ⟨rfl, rfl, ?_, ?_⟩
      · show (((facultiesT1 data yy.1 yy.2).map (mkT1Row data yy.1 yy.2)).map TRow.c1).sum = _
        rw [List.map_map]
        rfl
      · show (((facultiesT1 data yy.1 yy.2).map (mkT1Row data yy.1 yy.2)).map TRow.c2).sum = _
        rw [List.map_map]
        rfl
  · exact ⟨by decide, by decide⟩

/-- The enrollment comparison table generated from `c10data`. -/
def c10table : Table1 :=
  { year1 := 2024, year2 := 2025,
    facRows := [{ label := "A", c1 := 1, c2 := 1, pct := "0.0%" },
                { label := "B", c1 := 1, c2 := 0, pct := "-100.0%" }],
    grandTotal := { label := "Grand Total", c1 := 2, c2 := 1, pct := "-50.0%" } }

/-- C10 witness: on `c10data` the generator emits `c10table`, whose Grand
Total 2024 count is the sum of the faculty rows' 2024 counts. -/
theorem enrollment_grand_total_sum_witness :
    generate_wil_enrollment_comparison_table c10data = some c10table ∧
    c10table.grandTotal.c1 = (c10table.facRows.map TRow.c1).sum :=
  ⟨by decide, ((enrollment_grand_total_sum c10data).1 c10table (by decide)).1⟩

/-! ### Table 3's Grand Total as a union over faculties -/

/-- The distinct-student set of one faculty in one year. -/
def facStudents (data : List VRow) (y : Int) (f : String) : Finset Int :=
  ((data.filter (fun r => decide (r.faculty = f) && decide (r.year = y))).map VRow.studentId).toFinset

/-- The union of the per-faculty student sets over every faculty in the
table, for one year. -/
def allFacultyUnion (data : List VRow) (y : Int) : Finset Int :=
  (sortStr ((data.map VRow.faculty).dedup)).foldl (fun acc f => acc ∪ facStudents data y f) ∅

theorem mem_foldl_union (g : String → Finset Int) (facs : List String) (x : Int)
    (acc : Finset Int) :
    (x ∈ facs.foldl (fun a f => a ∪ g f) acc) ↔ x ∈ acc ∨ ∃ f ∈ facs, x ∈ g f := by
  induction facs generalizing acc with
  | nil => simp
  | cons f fs ih =>
    simp only [List.foldl_cons]
    rw [ih (acc ∪ g f)]
    simp only [Finset.mem_union, List.mem_cons]
    constructor
    · rintro ((hx | hx) | ⟨f2, hf2, hx⟩)
      · exact Or.inl hx
      · exact Or.inr ⟨f, Or.inl rfl, hx⟩
      · exact Or.inr ⟨f2, Or.inr hf2, hx⟩
    · rintro (hx | ⟨f2, (rfl | hf2), hx⟩)
      · exact Or.inl (Or.inl hx)
      · exact Or.inl (Or.inr hx)
      · exact Or.inr ⟨f2, hf2, hx⟩

theorem distinctStudentsYear_eq_union (data : List VRow) (y : Int) :
    distinctStudentsYear data y = (allFacultyUnion data y).card := by
  unfold distinctStudentsYear nuniqStudents allFacultyUnion
  congr 1
  ext x
  rw [mem_foldl_union]
  simp only [Finset.not_mem_empty, false_or, List.mem_toFinset, List.mem_map, List.mem_filter,
    facStudents, sortStr, mem_sortB, List.mem_dedup, decide_eq_true_eq, Bool.and_eq_true]
  constructor
  · rintro ⟨r, ⟨hr, hy⟩, rfl⟩
    exact ⟨r.faculty, ⟨r, hr, rfl⟩, r, ⟨hr, rfl, hy⟩, rfl⟩
  · rintro ⟨f, hf, r, ⟨hr, hfy, hy⟩, rfl⟩
    exact ⟨r, ⟨hr, hy⟩, rfl⟩

/-- The input behind the C4 example: student 7 appears under faculties "A"
and "B" in the same year. -/
def c4data : List VRow :=
  [{ year := 2024, term := 1, faculty := "A", studentId := 7, courseCode := none },
   { year := 2024, term := 1, faculty := "B", studentId := 7, courseCode := none },
   { year := 2025, term := 1, faculty := "A", studentId := 8, courseCode := none }]

/-- C4: in the academic-level demographics table the Grand Total row's count
for each compared year is the distinct student-id count across the whole
input table for that year, which equals the cardinality of the union of the
per-faculty student sets — not the sum of per-faculty counts: on `c4data`
the 2024 grand total is 1 although the two faculty counts sum to 2, because
student 7's two faculties count them once. -/
theorem demographics_grand_total_union (data : List VRow) :
    (∀ t3, generate_distinct_student_count_table data = some t3 →
       t3.grandTotal.c1 = distinctStudentsYear data t3.year1 ∧
       t3.grandTotal.c2 = distinctStudentsYear data t3.year2 ∧
       t3.grandTotal.c1 = (allFacultyUnion data t3.year1).card ∧
       t3.grandTotal.c2 = (allFacultyUnion data t3.year2).card) ∧
    ((generate_distinct_student_count_table c4data).map (fun t => t.grandTotal.c1) = some 1 ∧
     facCount c4data 2024 "A" + facCount c4data 2024 "B" = 2) := by
  constructor
  · intro t3 h
    unfold generate_distinct_student_count_table at h
    cases hy : lastTwo (availableYears data) with
    | none => rw [hy] at h; exact absurd h (by simp)
    | some yy =>
      rw [hy, Option.map_some'] at h
      obtain rfl := Option.some.inj h.symm
      exact ⟨rfl, rfl, distinctStudentsYear_eq_union data yy.1,
             distinctStudentsYear_eq_union data yy.2⟩
  · exact ⟨by decide, by decide⟩

/-- The demographics table generated from `c4data`. -/
def c4table : Table3 :=
  { year1 := 2024, year2 := 2025,
    body := [{ label := "A", c1 := 1, c2 := 1, pct := "0.0%" },
             { label := "    Undergraduate", c1 := 1, c2 := 1, pct := "0.0%" },
             { label := "  Total", c1 := 1, c2 := 1, pct := "0.0%" },
             { label := "B", c1 := 1, c2 := 0, pct := "-100.0%" },
             { label := "    Undergraduate", c1 := 1, c2 := 0, pct := "-100.0%" },
             { label := "  Total", c1 := 1, c2 := 0, pct := "-100.0%" }],
    grandTotal := { label := "Grand Total", c1 := 1, c2 := 1, pct := "0.0%" } }

/-- C4 witness: on `c4data` the generator emits `c4table`, whose Grand Total
2024 count equals the cardinality of the union of the per-faculty student
sets. -/
theorem demographics_grand_total_union_witness :
    generate_distinct_student_count_table c4data = some c4table ∧
    c4table.grandTotal.c1 = (allFacultyUnion c4data c4table.year1).card :=
  ⟨by decide, ((demographics_grand_total_union c4data).1 c4table (by decide)).2.2.1⟩

/-! ### Table 2's column set -/

/-- The input behind the C6 counterexample: term 1 occurs only in 2024 and
term 2 only in 2025. -/
def c6data : List VRow :=
  [{ year := 2024, term := 1, faculty := "A", studentId := 1, courseCode := none },
   { year := 2025, term := 2, faculty := "A", studentId := 2, courseCode := none }]

/-- C6 counterexample: the claim says the term-breakdown columns are exactly
the (year, term) combinations observed in the data, but on `c6data` the
generator emits four columns while only two combinations are observed — in
particular the column "2024 2" exists although no row carries year 2024 with
term 2. -/
theorem term_breakdown_columns_counterexample :
    ((generate_term_breakdown_table c6data).map Table2.termColumns)
      = some ["2024 1", "2024 2", "2025 1", "2025 2"] ∧
    (c6data.map (fun r => (r.year, r.term))).dedup = [(2024, 1), (2025, 2)] ∧
    ¬ ((2024 : Int), (2 : Int)) ∈ c6data.map (fun r => (r.year, r.term)) := by
  decide

/-- C6 (amended): for every input with at least 2 distinct years, the
term-breakdown columns are exactly the two compared years crossed with every
term observed anywhere in the data (the cartesian product, which can include
(year, term) pairs with no observed rows), every faculty row and the Grand
Total row carry one count per column, and each Grand Total entry is the
column-wise sum of the faculty rows' entries. -/
theorem term_breakdown_columns (data : List VRow) :
    ∀ t2, generate_term_breakdown_table data = some t2 →
      t2.termColumns = (termColPairs data t2.year1 t2.year2).map termColName ∧
      (∀ r ∈ t2.facRows, r.counts.map Prod.fst = t2.termColumns) ∧
      t2.grandTotal.counts.map Prod.fst = t2.termColumns ∧
      (∀ i : Nat, i < t2.termColumns.length →
        (t2.grandTotal.counts.map Prod.snd)[i]?
          = some ((t2.facRows.map (fun r => ((r.counts.map Prod.snd)[i]?).getD 0)).sum)) := by
  intro t2 h
  unfold generate_term_breakdown_table at h
  cases hy : lastTwo (availableYears data) with
  | none => rw [hy] at h; exact absurd h (by simp)
  | some yy =>
    rw [hy, Option.map_some'] at h
    obtain rfl := Option.some.inj h.symm
    refine ⟨rfl, ?_, ?_, ?_⟩
    · intro r hr
      simp only [Table2.facRows] at hr
      obtain ⟨f, _, rfl⟩ := List.mem_map.mp hr
      show ((termColPairs data yy.1 yy.2).map
          (fun p => (termColName p, termCount data f p.1 p.2))).map Prod.fst = _
      rw [List.map_map]
      rfl
    · show ((termColPairs data yy.1 yy.2).map (fun p =>
          (termColName p,
           ((sortStr ((data.map VRow.faculty).dedup)).map
             (fun f => termCount data f p.1 p.2)).sum))).map Prod.fst = _
      rw [List.map_map]
      rfl
    · intro i hi
      have hi2 : i < (termColPairs data yy.1 yy.2).length := by
        simpa using hi
      simp only [Table2.grandTotal, Table2.facRows, T2Row.counts, List.map_map,
        List.getElem?_map, List.getElem?_eq_getElem hi2, Option.map_some', Option.getD_some,
        Function.comp]
      refine congrArg (fun l : List Nat => some l.sum) ?_
      refine List.map_congr_left ?_
      intro f _
      simp only [Function.comp_apply, T2Row.counts, List.getElem?_map,
        List.getElem?_eq_getElem hi2, Option.map_some', Option.getD_some]

/-- The term-breakdown table generated from `c6data`. -/
def c6table : Table2 :=
  { year1 := 2024, year2 := 2025,
    termColumns := ["2024 1", "2024 2", "2025 1", "2025 2"],
    facRows := [{ label := "A",
                  counts := [("2024 1", 1), ("2024 2", 0), ("2025 1", 0), ("2025 2", 1)] }],
    grandTotal := { label := "Grand Total",
                    counts := [("2024 1", 1), ("2024 2", 0), ("2025 1", 0), ("2025 2", 1)] } }

/-- C6 witness: on `c6data` the generator emits `c6table`, and its first
Grand Total entry is the column-wise sum of the faculty rows' first
entries. -/
theorem term_breakdown_columns_witness :
    generate_term_breakdown_table c6data = some c6table ∧
    (0 : Nat) < c6table.termColumns.length ∧
    (c6table.grandTotal.counts.map Prod.snd)[0]?
      = some ((c6table.facRows.map (fun r => ((r.counts.map Prod.snd)[0]?).getD 0)).sum) :=
  ⟨by decide, by decide,
   ((term_breakdown_columns c6data) c6table (by decide)).2.2.2 0 (by decide)⟩
